import Mathlib

/-!
Verification development for the Roof-Estimates repository.

The repository is a browser single-page application (TypeScript).  We give a
shallow embedding of the business logic that the verified properties are
about: the JavaScript number semantics needed by the code (NaN, signed
infinities, finite values modelled exactly as rationals), string parsing
(a model of the standard library function parseFloat and of toFixed and of
number-to-string conversion), the SVG diagram renderer, the PDF pagination
helper, and the local-storage CRUD helpers for reports, templates and
quotes.  Local storage is modelled as the decoded value stored under the
relevant key (an absent key is the value none); JSON encode/decode
round-tripping is taken as the identity on the decoded records.

Idealisations, stated once here: finite JavaScript numbers are modelled as
exact rationals (IEEE-754 rounding of doubles is not modelled, and the
model has no negative zero; negative zero only matters for truthiness,
where it behaves like zero, which the model preserves), and the
number-to-string conversion prints the exact decimal expansion, truncated
after 30 fractional digits when the expansion does not terminate.
-/

/-- Model of a JavaScript number: NaN, the two infinities, or a finite
value (modelled as an exact rational). -/
inductive JSNum where
  | nan : JSNum
  | posInf : JSNum
  | negInf : JSNum
  | num : ℚ → JSNum
deriving DecidableEq

instance (n : Nat) : OfNat JSNum n := ⟨JSNum.num n⟩

/-- JavaScript truthiness of a number: NaN and zero (including negative
zero, which the model identifies with zero) are falsy. -/
def JSNum.truthy : JSNum → Bool
  | .nan => false
  | .num q => decide (q ≠ 0)
  | _ => true

/-- JavaScript addition on the number model. -/
def JSNum.add : JSNum → JSNum → JSNum
  | .nan, _ => .nan
  | _, .nan => .nan
  | .posInf, .negInf => .nan
  | .negInf, .posInf => .nan
  | .posInf, _ => .posInf
  | _, .posInf => .posInf
  | .negInf, _ => .negInf
  | _, .negInf => .negInf
  | .num a, .num b => .num (a + b)

/-- JavaScript negation on the number model. -/
def JSNum.neg : JSNum → JSNum
  | .nan => .nan
  | .posInf => .negInf
  | .negInf => .posInf
  | .num a => .num (-a)

/-- JavaScript subtraction on the number model. -/
def JSNum.sub (a b : JSNum) : JSNum := a.add b.neg

/-- JavaScript multiplication on the number model. -/
def JSNum.mul : JSNum → JSNum → JSNum
  | .nan, _ => .nan
  | _, .nan => .nan
  | .posInf, .posInf => .posInf
  | .posInf, .negInf => .negInf
  | .negInf, .posInf => .negInf
  | .negInf, .negInf => .posInf
  | .posInf, .num b => if b = 0 then .nan else if 0 < b then .posInf else .negInf
  | .num a, .posInf => if a = 0 then .nan else if 0 < a then .posInf else .negInf
  | .negInf, .num b => if b = 0 then .nan else if 0 < b then .negInf else .posInf
  | .num a, .negInf => if a = 0 then .nan else if 0 < a then .negInf else .posInf
  | .num a, .num b => .num (a * b)

/-- JavaScript division on the number model.  Division of a nonzero finite
value by zero yields an infinity (the model has only a positive zero, so
the sign is the sign of the dividend); zero divided by zero is NaN. -/
def JSNum.div : JSNum → JSNum → JSNum
  | .nan, _ => .nan
  | _, .nan => .nan
  | .posInf, .posInf => .nan
  | .posInf, .negInf => .nan
  | .negInf, .posInf => .nan
  | .negInf, .negInf => .nan
  | .posInf, .num b => if 0 ≤ b then .posInf else .negInf
  | .negInf, .num b => if 0 ≤ b then .negInf else .posInf
  | .num _, .posInf => .num 0
  | .num _, .negInf => .num 0
  | .num a, .num b =>
      if b = 0 then (if a = 0 then .nan else if 0 < a then .posInf else .negInf)
      else .num (a / b)

instance : Add JSNum := ⟨JSNum.add⟩
instance : Neg JSNum := ⟨JSNum.neg⟩
instance : Sub JSNum := ⟨JSNum.sub⟩
instance : Mul JSNum := ⟨JSNum.mul⟩
instance : Div JSNum := ⟨JSNum.div⟩

/-- The JavaScript idiom `x || d` on numbers: the fallback `d` is used
exactly when `x` is falsy (NaN or zero). -/
def jsOr (x d : JSNum) : JSNum := if x.truthy then x else d

/-- The JavaScript idiom `xs[i] || d`: indexing past the end of the array
yields undefined, which is falsy, so the fallback is also used then. -/
def jsOrOpt (x : Option JSNum) (d : JSNum) : JSNum :=
  match x with
  | none => d
  | some v => jsOr v d

/-- The JavaScript idiom `s || d` on strings: the empty string is falsy. -/
def strOr (s d : String) : String := if s = "" then d else s

/-- The white-space characters skipped by parseFloat (the common ones). -/
def isJsSpace (c : Char) : Bool :=
  c = ' ' || c = '\t' || c = '\n' || c = '\r' || c.toNat = 11 || c.toNat = 12 ||
    c.toNat = 160 || c.toNat = 0xFEFF

/-- Numeric value of a list of decimal digit characters. -/
def digitsVal (ds : List Char) : ℚ :=
  ds.foldl (fun a c => a * 10 + ((c.toNat - 48 : ℕ) : ℚ)) 0

/-- Natural-number value of a list of decimal digit characters. -/
def digitsValN (ds : List Char) : ℕ :=
  ds.foldl (fun a c => a * 10 + (c.toNat - 48)) 0

/-- Ten to an integer power, as a rational. -/
def qpow10 (e : ℤ) : ℚ :=
  if 0 ≤ e then (10 : ℚ) ^ e.toNat else 1 / (10 : ℚ) ^ (-e).toNat

/-- The exponent part of a decimal literal as consumed by parseFloat: an
optional sign followed by digits; if no digit follows, the exponent marker
is not part of the longest valid prefix and the exponent is zero. -/
def parseExp (r : List Char) : ℤ :=
  let signed : Bool × List Char :=
    match r with
    | '-' :: t => (true, t)
    | '+' :: t => (false, t)
    | t => (false, t)
  let ds := signed.2.takeWhile Char.isDigit
  if ds.isEmpty then 0
  else if signed.1 then -(digitsValN ds : ℤ) else (digitsValN ds : ℤ)

/-- Model of the JavaScript library function parseFloat: skip leading
white space, read an optional sign, then the longest prefix that is a
decimal literal (digits, an optional fraction, an optional exponent) or
the word Infinity; if no such prefix exists the result is NaN. -/
def parseFloat (s : String) : JSNum :=
  let cs0 := s.data.dropWhile isJsSpace
  let signed : Bool × List Char :=
    match cs0 with
    | '-' :: r => (true, r)
    | '+' :: r => (false, r)
    | r => (false, r)
  match signed.2 with
  | 'I' :: 'n' :: 'f' :: 'i' :: 'n' :: 'i' :: 't' :: 'y' :: _ =>
      if signed.1 then .negInf else .posInf
  | cs =>
      let intDigits := cs.takeWhile Char.isDigit
      let rest1 := cs.dropWhile Char.isDigit
      let fracAndRest : List Char × List Char :=
        match rest1 with
        | '.' :: r => (r.takeWhile Char.isDigit, r.dropWhile Char.isDigit)
        | r => ([], r)
      let fracDigits := fracAndRest.1
      if intDigits.isEmpty && fracDigits.isEmpty then .nan
      else
        let mantissa : ℚ :=
          digitsVal intDigits + digitsVal fracDigits / (10 : ℚ) ^ fracDigits.length
        let e : ℤ :=
          match fracAndRest.2 with
          | 'e' :: r => parseExp r
          | 'E' :: r => parseExp r
          | _ => 0
        let v := mantissa * qpow10 e
        .num (if signed.1 then -v else v)

/-- The decimal digit characters of a natural number, padded on the left
with zeros to the given length. -/
def natPadded (len : ℕ) (n : ℕ) : String :=
  let s := toString n
  String.mk (List.replicate (len - s.length) '0') ++ s

/-- toFixed on a nonnegative rational: round to the nearest multiple of
ten to the minus f, ties towards the larger value, then print with exactly
f fractional digits. -/
def toFixedPos (f : ℕ) (m : ℚ) : String :=
  let n : ℕ := (Rat.floor (m * (10 : ℚ) ^ f + 1 / 2)).toNat
  if f = 0 then toString (n : ℕ)
  else toString (n / 10 ^ f) ++ "." ++ natPadded f (n % 10 ^ f)

/-- Model of the JavaScript method toFixed. -/
def toFixed (f : ℕ) (x : JSNum) : String :=
  match x with
  | .nan => "NaN"
  | .posInf => "Infinity"
  | .negInf => "-Infinity"
  | .num q => if q < 0 then "-" ++ toFixedPos f (-q) else toFixedPos f q

/-- The fractional digits of a rational in [0, 1), at most `fuel` many,
stopping early when the expansion terminates. -/
def fracDigits : ℕ → ℚ → List Char
  | 0, _ => []
  | fuel + 1, r =>
      if r = 0 then []
      else
        let r10 := r * 10
        let d := (Rat.floor r10).toNat
        Char.ofNat (48 + d) :: fracDigits fuel (r10 - (d : ℚ))

/-- Decimal rendering of a nonnegative rational: integer part, and the
fractional expansion when it is nonzero. -/
def ratToStringPos (m : ℚ) : String :=
  let ip := (Rat.floor m).toNat
  let r := m - (ip : ℚ)
  if r = 0 then toString ip
  else toString ip ++ "." ++ String.mk (fracDigits 30 r)

/-- Model of JavaScript number-to-string conversion (as used by template
literal interpolation). -/
def jsToString (x : JSNum) : String :=
  match x with
  | .nan => "NaN"
  | .posInf => "Infinity"
  | .negInf => "-Infinity"
  | .num q => if q < 0 then "-" ++ ratToStringPos (-q) else ratToStringPos q

/-- The structured measurement payload (all fields are strings in the
code). -/
structure Measurements where
  totalArea : String
  pitch : String
  ridges : String
  valleys : String
  eaves : String
  rakes : String
  wasteFactor : String
deriving DecidableEq

/-- ridgeLength in createRoofVisualizationSVG. -/
def ridgeLength (m : Measurements) : JSNum := jsOr (parseFloat m.ridges) 100

/-- roofDepth in createRoofVisualizationSVG (eaves cover two sides of a
gable roof, hence the halving). -/
def roofDepth (m : Measurements) : JSNum := (jsOr (parseFloat m.eaves) 200) / 2

/-- pitchParts in createRoofVisualizationSVG. -/
def pitchParts (m : Measurements) : List JSNum :=
  ((strOr m.pitch "6/12").splitOn "/").map (fun p => parseFloat p)

/-- rise in createRoofVisualizationSVG. -/
def rise (m : Measurements) : JSNum := jsOrOpt ((pitchParts m)[0]?) 6

/-- run in createRoofVisualizationSVG. -/
def run (m : Measurements) : JSNum := jsOrOpt ((pitchParts m)[1]?) 12

/-- Fixed SVG layout constants from createRoofVisualizationSVG. -/
def svgWidth : JSNum := 400

def svgHeight : JSNum := 250

def rectWidth : JSNum := 200

def rectX : JSNum := 30

def rectY : JSNum := 60

def triBase : JSNum := 100

def triX : JSNum := 270

/-- Height of the top-down rectangle. -/
def rectHeight (m : Measurements) : JSNum := (roofDepth m) / (ridgeLength m) * rectWidth

/-- Height of the pitch triangle. -/
def triHeight (m : Measurements) : JSNum := (rise m) / (run m) * triBase

/-- Vertical position of the triangle base (bottom aligned with the
rectangle). -/
def triY (m : Measurements) : JSNum := rectY + rectHeight m

def textStyle : String :=
  "font-family: var(--body-font); font-size: 12px; fill: #4a5568;"

def dimensionStyle : String :=
  "font-family: var(--body-font); font-size: 14px; font-weight: 600; fill: #1a202c;"

def shapeStyle : String :=
  "fill: #e2e8f0; stroke: #a0aec0; stroke-width: 1.5;"

/-- The SVG string returned by createRoofVisualizationSVG, with every
template interpolation rendered through the number-to-string model. -/
def createRoofVisualizationSVG (m : Measurements) : String :=
  "\n      <svg viewBox=\"0 0 " ++ jsToString svgWidth ++ " " ++ jsToString svgHeight ++
  "\" xmlns=\"http://www.w3.org/2000/svg\" aria-labelledby=\"visTitle\" role=\"img\">\n        <title id=\"visTitle\">2D Roof Diagram</title>\n        \n        <text x=\"" ++
  jsToString (svgWidth / 2) ++
  "\" y=\"25\" text-anchor=\"middle\" style=\"" ++
  (String.replace dimensionStyle ("14px") ("16px")) ++
  "\">Roof Diagram</text>\n\n        <!-- Top-Down View -->\n        <text x=\"" ++
  jsToString (rectX + rectWidth / 2) ++ "\" y=\"" ++ jsToString (rectY - 10) ++
  "\" text-anchor=\"middle\" style=\"" ++ textStyle ++
  "\">Top-Down View</text>\n        <rect x=\"" ++ jsToString rectX ++
  "\" y=\"" ++ jsToString rectY ++ "\" width=\"" ++ jsToString rectWidth ++
  "\" height=\"" ++ jsToString (rectHeight m) ++ "\" style=\"" ++ shapeStyle ++
  "\" rx=\"4\" />\n        <text x=\"" ++ jsToString (rectX + rectWidth / 2) ++
  "\" y=\"" ++ jsToString (rectY + rectHeight m + 20) ++
  "\" text-anchor=\"middle\" style=\"" ++ dimensionStyle ++ "\">" ++
  jsToString (ridgeLength m) ++ " ft (Ridge)</text>\n        <text x=\"" ++
  jsToString (rectX - 10) ++ "\" y=\"" ++ jsToString (rectY + rectHeight m / 2) ++
  "\" text-anchor=\"end\" dominant-baseline=\"middle\" style=\"" ++ dimensionStyle ++
  "\" transform=\"rotate(-90, " ++ jsToString (rectX - 10) ++ ", " ++
  jsToString (rectY + rectHeight m / 2) ++ ")\">" ++ toFixed 1 (roofDepth m) ++
  " ft</text>\n\n        <!-- Pitch View -->\n        <text x=\"" ++
  jsToString (triX + triBase / 2) ++ "\" y=\"" ++ jsToString (rectY - 10) ++
  "\" text-anchor=\"middle\" style=\"" ++ textStyle ++ "\">Pitch: " ++
  jsToString (rise m) ++ "/" ++ jsToString (run m) ++
  "</text>\n        <polygon points=\"" ++ jsToString triX ++ "," ++
  jsToString (triY m) ++ " " ++ jsToString (triX + triBase) ++ "," ++
  jsToString (triY m) ++ " " ++ jsToString (triX + triBase) ++ "," ++
  jsToString (triY m - triHeight m) ++ "\" style=\"" ++ shapeStyle ++
  "\" />\n        <line x1=\"" ++ jsToString triX ++ "\" y1=\"" ++
  jsToString (triY m) ++ "\" x2=\"" ++ jsToString (triX + triBase) ++
  "\" y2=\"" ++ jsToString (triY m) ++
  "\" stroke=\"#4a5568\" stroke-dasharray=\"2,2\" />\n        <line x1=\"" ++
  jsToString (triX + triBase) ++ "\" y1=\"" ++ jsToString (triY m) ++
  "\" x2=\"" ++ jsToString (triX + triBase) ++ "\" y2=\"" ++
  jsToString (triY m - triHeight m) ++
  "\" stroke=\"#4a5568\" stroke-dasharray=\"2,2\" />\n        <text x=\"" ++
  jsToString (triX + triBase / 2) ++ "\" y=\"" ++ jsToString (triY m + 15) ++
  "\" text-anchor=\"middle\" style=\"" ++ textStyle ++ "\">" ++
  jsToString (run m) ++ "\" Run</text>\n        <text x=\"" ++
  jsToString (triX + triBase + 10) ++ "\" y=\"" ++
  jsToString (triY m - triHeight m / 2) ++
  "\" dominant-baseline=\"middle\" style=\"" ++ textStyle ++ "\">" ++
  jsToString (rise m) ++ "\" Rise</text>\n      </svg>\n    "

/-- The part of the SVG template before the rect height attribute (up to
and including the printed rect width). -/
def svgPre (_m : Measurements) : String :=
  "\n      <svg viewBox=\"0 0 " ++ jsToString svgWidth ++ " " ++ jsToString svgHeight ++
  "\" xmlns=\"http://www.w3.org/2000/svg\" aria-labelledby=\"visTitle\" role=\"img\">\n        <title id=\"visTitle\">2D Roof Diagram</title>\n        \n        <text x=\"" ++
  jsToString (svgWidth / 2) ++
  "\" y=\"25\" text-anchor=\"middle\" style=\"" ++
  (String.replace dimensionStyle ("14px") ("16px")) ++
  "\">Roof Diagram</text>\n\n        <!-- Top-Down View -->\n        <text x=\"" ++
  jsToString (rectX + rectWidth / 2) ++ "\" y=\"" ++ jsToString (rectY - 10) ++
  "\" text-anchor=\"middle\" style=\"" ++ textStyle ++
  "\">Top-Down View</text>\n        <rect x=\"" ++ jsToString rectX ++
  "\" y=\"" ++ jsToString rectY ++ "\" width=\"" ++ jsToString rectWidth

/-- The part of the SVG template between the rect style attribute and the
polygon (up to and including the printed pitch run). -/
def svgMid (m : Measurements) : String :=
  shapeStyle ++
  "\" rx=\"4\" />\n        <text x=\"" ++ jsToString (rectX + rectWidth / 2) ++
  "\" y=\"" ++ jsToString (rectY + rectHeight m + 20) ++
  "\" text-anchor=\"middle\" style=\"" ++ dimensionStyle ++ "\">" ++
  jsToString (ridgeLength m) ++ " ft (Ridge)</text>\n        <text x=\"" ++
  jsToString (rectX - 10) ++ "\" y=\"" ++ jsToString (rectY + rectHeight m / 2) ++
  "\" text-anchor=\"end\" dominant-baseline=\"middle\" style=\"" ++ dimensionStyle ++
  "\" transform=\"rotate(-90, " ++ jsToString (rectX - 10) ++ ", " ++
  jsToString (rectY + rectHeight m / 2) ++ ")\">" ++ toFixed 1 (roofDepth m) ++
  " ft</text>\n\n        <!-- Pitch View -->\n        <text x=\"" ++
  jsToString (triX + triBase / 2) ++ "\" y=\"" ++ jsToString (rectY - 10) ++
  "\" text-anchor=\"middle\" style=\"" ++ textStyle ++ "\">Pitch: " ++
  jsToString (rise m) ++ "/" ++ jsToString (run m)

/-- The part of the SVG template after the polygon style attribute. -/
def svgPost (m : Measurements) : String :=
  shapeStyle ++
  "\" />\n        <line x1=\"" ++ jsToString triX ++ "\" y1=\"" ++
  jsToString (triY m) ++ "\" x2=\"" ++ jsToString (triX + triBase) ++
  "\" y2=\"" ++ jsToString (triY m) ++
  "\" stroke=\"#4a5568\" stroke-dasharray=\"2,2\" />\n        <line x1=\"" ++
  jsToString (triX + triBase) ++ "\" y1=\"" ++ jsToString (triY m) ++
  "\" x2=\"" ++ jsToString (triX + triBase) ++ "\" y2=\"" ++
  jsToString (triY m - triHeight m) ++
  "\" stroke=\"#4a5568\" stroke-dasharray=\"2,2\" />\n        <text x=\"" ++
  jsToString (triX + triBase / 2) ++ "\" y=\"" ++ jsToString (triY m + 15) ++
  "\" text-anchor=\"middle\" style=\"" ++ textStyle ++ "\">" ++
  jsToString (run m) ++ "\" Run</text>\n        <text x=\"" ++
  jsToString (triX + triBase + 10) ++ "\" y=\"" ++
  jsToString (triY m - triHeight m / 2) ++
  "\" dominant-baseline=\"middle\" style=\"" ++ textStyle ++ "\">" ++
  jsToString (rise m) ++ "\" Rise</text>\n      </svg>\n    "

/-- The PDF pagination helper checkPageBreak from handleDownloadPdf.  The
first argument is the page height; the margin is the constant 40.  The
boolean records whether doc.addPage() was called. -/
def checkPageBreak (pageHeight currentY itemHeight : ℚ) : ℚ × Bool :=
  if currentY + itemHeight > pageHeight - 40 then (40, true) else (currentY, false)

/-- A custom template section. -/
structure CustomSection where
  id : String
  title : String
deriving DecidableEq

/-- A report template. -/
structure Template where
  id : Nat
  name : String
  customSections : List CustomSection
deriving DecidableEq

/-- A stored roof report. -/
structure Report where
  id : Nat
  address : String
  imageUrl : String
  measurements : Measurements
  timestamp : String
  templateId : Option Nat
  customData : List (String × String)
deriving DecidableEq

/-- The argument of saveReportToHistory: a report without id, timestamp
and customData. -/
structure ReportInput where
  address : String
  imageUrl : String
  measurements : Measurements
  templateId : Option Nat
deriving DecidableEq

/-- getReportHistory: the decoded value under the roofReportHistory key,
or the empty list when the key is absent. -/
def getReportHistory (store : Option (List Report)) : List Report := store.getD []

/-- getTemplates: the decoded value under the reportTemplates key, or the
empty list when the key is absent. -/
def getTemplates (store : Option (List Template)) : List Template := store.getD []

/-- saveReportToHistory: build the new report (fresh id from Date.now(),
fresh ISO timestamp, custom-data fields initialised from the selected
template when one is set), prepend it to the stored history with unshift,
and write the result back.  Returns the written history and the new
report. -/
def saveReportToHistory (now : Nat) (timestamp : String)
    (templates : Option (List Template)) (store : Option (List Report))
    (r : ReportInput) : List Report × Report :=
  let history := getReportHistory store
  let base : Report :=
    { id := now, address := r.address, imageUrl := r.imageUrl,
      measurements := r.measurements, timestamp := timestamp,
      templateId := r.templateId, customData := [] }
  let newReport : Report :=
    match r.templateId with
    | some tid =>
        if tid = 0 then base
        else
          match (getTemplates templates).find? (fun t => t.id == tid) with
          | some t => { base with customData := t.customSections.map (fun s => (s.id, "")) }
          | none => base
    | none => base
  (newReport :: history, newReport)

/-- Model of the JavaScript array method findIndex (none in place of -1). -/
def jsFindIndex {α : Type} (p : α → Bool) : List α → Option ℕ
  | [] => none
  | a :: l => if p a then some 0 else (jsFindIndex p l).map (· + 1)

/-- updateReportInHistory: replace the first stored report with the same
id, or write nothing when no stored report has the id. -/
def updateReportInHistory (u : Report) (store : Option (List Report)) :
    Option (List Report) :=
  let history := getReportHistory store
  match jsFindIndex (fun r => r.id == u.id) history with
  | some i => some (history.set i u)
  | none => store

/-- deleteTemplate: write back the stored templates whose id differs from
the given one. -/
def deleteTemplate (templateId : Nat) (store : Option (List Template)) :
    List Template :=
  (getTemplates store).filter (fun t => t.id != templateId)

/-- A property of the JSON response schema sent with the measurement
request. -/
structure SchemaProperty where
  name : String
  type : String
  description : String
deriving DecidableEq

/-- The measurement response schema from getRoofReport. -/
def measurementSchemaProperties : List SchemaProperty :=
  [⟨"totalArea", "STRING", "Total roof area in square feet (e.g., \"2,450 sq ft\")"⟩,
   ⟨"pitch", "STRING", "The primary pitch of the roof (e.g., \"6/12\")"⟩,
   ⟨"ridges", "STRING", "Total length of all ridges in linear feet (e.g., \"120 ft\")"⟩,
   ⟨"valleys", "STRING", "Total length of all valleys in linear feet (e.g., \"65 ft\")"⟩,
   ⟨"eaves", "STRING", "Total length of all eaves in linear feet (e.g., \"180 ft\")"⟩,
   ⟨"rakes", "STRING", "Total length of all rakes in linear feet (e.g., \"90 ft\")"⟩,
   ⟨"wasteFactor", "STRING", "Suggested waste factor percentage (e.g., \"15%\")"⟩]

/-- The required fields of the measurement response schema. -/
def measurementSchemaRequired : List String :=
  ["totalArea", "pitch", "ridges", "valleys", "eaves", "rakes", "wasteFactor"]

/-- Configuration of the structured-measurement request. -/
structure GenContentConfig where
  responseMimeType : String
  responseSchemaProperties : List SchemaProperty
  responseSchemaRequired : List String
deriving DecidableEq

/-- The structured-measurement request of getRoofReport. -/
structure GenContentRequest where
  model : String
  contents : String
  config : GenContentConfig
deriving DecidableEq

/-- Configuration of the image request. -/
structure GenImagesConfig where
  numberOfImages : Nat
  outputMimeType : String
  aspectRatio : String
deriving DecidableEq

/-- The image request of getRoofReport. -/
structure GenImagesRequest where
  model : String
  prompt : String
  config : GenImagesConfig
deriving DecidableEq

/-- The structured-measurement call built in getRoofReport. -/
def measurementRequest (address : String) : GenContentRequest :=
  { model := "gemini-2.5-flash",
    contents := "Generate a realistic set of roof measurements for a typical single-family home at the address: " ++ address ++ ".",
    config :=
      { responseMimeType := "application/json",
        responseSchemaProperties := measurementSchemaProperties,
        responseSchemaRequired := measurementSchemaRequired } }

/-- The image call built in getRoofReport. -/
def imageRequest (address : String) : GenImagesRequest :=
  { model := "imagen-4.0-generate-001",
    prompt := "A high-resolution, top-down satellite image of a suburban house at " ++ address ++ ". The roof should be clearly visible. Sunny day, no clouds or shadows obscuring the roof.",
    config := { numberOfImages := 1, outputMimeType := "image/jpeg", aspectRatio := "1:1" } }

/-- The image value of one generated image. -/
structure GenImage where
  imageBytes : String
deriving DecidableEq

/-- One generated image of the image response. -/
structure GeneratedImage where
  image : GenImage
deriving DecidableEq

/-- The image response. -/
structure ImageResponse where
  generatedImages : List GeneratedImage
deriving DecidableEq

/-- The measurement response. -/
structure MeasurementResponse where
  text : String
deriving DecidableEq

/-- getRoofReport: build the two requests as a pair, hand the pair to the
network (Promise.all awaits both responses), then return the parsed
measurement text together with the data URL of the first generated image.
JSON.parse is a parameter (its success is part of the environment), and
reading the first element of an empty image array throws, hence Option. -/
def getRoofReport (parseJson : String → Measurements) (address : String)
    (respond : GenContentRequest × GenImagesRequest → MeasurementResponse × ImageResponse) :
    Option (String × Measurements) :=
  let requests := (measurementRequest address, imageRequest address)
  let responses := respond requests
  let measurements := parseJson responses.1.text
  match responses.2.generatedImages with
  | [] => none
  | g :: _ => some ("data:image/jpeg;base64," ++ g.image.imageBytes, measurements)

/-- An observable step taken by a DOM event handler, in order. -/
inductive UIEvent where
  | setItem (key value : String)
  | closeModal
  | render (view : String)
  | setNavText (text : String)
  | navListenerRemove (handler : String)
  | navListenerAdd (handler : String)
  | showNav (link : String)
deriving DecidableEq

/-- The signup-form submit listener of index.tsx: store the trimmed
full-name input under contractorUserName, close the modal, render the
address-input view. -/
def signUpListenerIndex (fullName : String) : List UIEvent :=
  [.setItem "contractorUserName" fullName.trim, .closeModal, .render "address-input"]

/-- The signup-form submit listener of the quote-builder document: store
the trimmed full-name input under contractorUserName, close the modal,
render the dashboard. -/
def signUpListenerQuotes (fullName : String) : List UIEvent :=
  [.setItem "contractorUserName" fullName.trim, .closeModal, .render "dashboard"]

/-- handleSignUpFormSubmit of the report document in part_000: close the
modal, render the address-input view, rewire the nav for the logged-in
state, and reveal the history link when the stored history is nonempty. -/
def handleSignUpFormSubmit (historyLength : Nat) : List UIEvent :=
  [.closeModal, .render "address-input", .setNavText "New Report",
   .navListenerRemove "openModal", .navListenerAdd "renderAddressInput",
   .showNav "profile", .showNav "templates"] ++
  (if historyLength > 0 then [.showNav "history"] else [])

/-- Whether a handler step is a local-storage write. -/
def isSetItemEvent : UIEvent → Bool
  | .setItem _ _ => true
  | _ => false

/-- A line item of a quote. -/
structure LineItem where
  description : String
  quantity : JSNum
  rate : JSNum
deriving DecidableEq

/-- A stored quote. -/
structure Quote where
  id : Nat
  clientName : String
  clientAddress : String
  clientEmail : String
  projectTitle : String
  lineItems : List LineItem
  total : JSNum
deriving DecidableEq

/-- getQuotesFromStorage: the decoded value under the contractorQuotes
key, or the empty list when the key is absent. -/
def getQuotesFromStorage (store : Option (List Quote)) : List Quote := store.getD []

/-- updateTotals of the quote creator.  A row is the pair of the quantity
and rate inputs read through valueAsNumber (NaN for a non-numeric input).
Returns the per-row total cell texts, in row order, and the grand-total
text. -/
def updateTotals (rows : List (JSNum × JSNum)) : List String × String :=
  let step := fun (acc : JSNum × List String) (r : JSNum × JSNum) =>
    let quantity := jsOr r.1 0
    let rate := jsOr r.2 0
    let total := quantity * rate
    (acc.1 + total, acc.2 ++ ["$" ++ toFixed 2 total])
  let result := rows.foldl step (0, [])
  (result.2, "Total: $" ++ toFixed 2 result.1)

/-- The quote-form submit listener: read the rows into line items,
accumulate the total, alert (true) and keep the stored quotes unchanged
when there is no line item, otherwise push the new quote onto the stored
list and save it.  A row carries the description and the raw
valueAsNumber quantity and rate. -/
def quoteFormSubmit (now : Nat)
    (clientName clientAddress clientEmail projectTitle : String)
    (rows : List (String × JSNum × JSNum)) (store : Option (List Quote)) :
    List Quote × Bool :=
  let quotes := getQuotesFromStorage store
  let lineItems := rows.map (fun r =>
    ({ description := r.1, quantity := r.2.1, rate := r.2.2 } : LineItem))
  let total := rows.foldl (fun acc r => acc + r.2.1 * r.2.2) (0 : JSNum)
  if lineItems.isEmpty then (quotes, true)
  else
    (quotes ++ [{ id := now, clientName := clientName, clientAddress := clientAddress,
                  clientEmail := clientEmail, projectTitle := projectTitle,
                  lineItems := lineItems, total := total }], false)

/-! ## Helper lemmas -/

/-- A numeric or with a nonzero finite fallback never yields zero. -/
theorem jsOr_ne_zero (x : JSNum) (d : ℚ) (hd : d ≠ 0) :
    jsOr x (JSNum.num d) ≠ JSNum.num 0 := by
  unfold jsOr
  split
  · rename_i h
    cases x with
    | nan => simp [JSNum.truthy] at h
    | posInf => simp
    | negInf => simp
    | num q =>
        simp [JSNum.truthy] at h
        simp [h]
  · simp [hd]

/-- An indexed or with a nonzero finite fallback never yields zero. -/
theorem jsOrOpt_ne_zero (x : Option JSNum) (d : ℚ) (hd : d ≠ 0) :
    jsOrOpt x (JSNum.num d) ≠ JSNum.num 0 := by
  cases x with
  | none => simp [jsOrOpt, hd]
  | some v => exact jsOr_ne_zero v d hd

/-- findIndex misses a list on which the predicate is everywhere false. -/
theorem jsFindIndex_eq_none {α : Type} (p : α → Bool) :
    ∀ l : List α, (∀ y ∈ l, p y = false) → jsFindIndex p l = none := by
  intro l h
  induction l with
  | nil => rfl
  | cons a t ih =>
      have ha := h a (by simp)
      have ht := ih (fun y hy => h y (by simp [hy]))
      simp [jsFindIndex, ha, ht]

/-- findIndex finds the first hit. -/
theorem jsFindIndex_first {α : Type} (p : α → Bool) (x : α) (post : List α) :
    ∀ pre : List α, (∀ y ∈ pre, p y = false) → p x = true →
      jsFindIndex p (pre ++ x :: post) = some pre.length := by
  intro pre
  induction pre with
  | nil => intro _ hx; simp [jsFindIndex, hx]
  | cons a t ih =>
      intro h hx
      have ha := h a (by simp)
      have ht := ih (fun y hy => h y (by simp [hy])) hx
      simp [jsFindIndex, ha, ht]

/-- Setting at the index right after a prefix replaces the following
element. -/
theorem set_after_prefix {α : Type} (u x : α) (post : List α) :
    ∀ pre : List α, (pre ++ x :: post).set pre.length u = pre ++ u :: post := by
  intro pre
  induction pre with
  | nil => rfl
  | cons a t ih => simp [List.set, ih]

/-! ## Claim theorems -/

/-- C10: the two divisions inside createRoofVisualizationSVG never divide
by a zero divisor: the parse-with-fallback chains make the ridge length
and the pitch run different from zero for every measurements record. -/
theorem c10_svg_no_div_by_zero (m : Measurements) :
    ridgeLength m ≠ JSNum.num 0 ∧ run m ≠ JSNum.num 0 := by
  constructor
  · exact jsOr_ne_zero (parseFloat m.ridges) 100 (by norm_num)
  · exact jsOrOpt_ne_zero ((pitchParts m)[1]?) 12 (by norm_num)

/-- C2: checkPageBreak adds a page and resets the cursor to the top
margin 40 exactly when the cursor plus the item height exceeds the page
height minus the margin 40, and otherwise returns the cursor unchanged
without adding a page. -/
theorem c2_checkPageBreak_spec (pageHeight currentY itemHeight : ℚ) :
    (checkPageBreak pageHeight currentY itemHeight = (40, true) ↔
      currentY + itemHeight > pageHeight - 40)
  ∧ (checkPageBreak pageHeight currentY itemHeight = (currentY, false) ↔
      ¬ currentY + itemHeight > pageHeight - 40) := by
  unfold checkPageBreak
  by_cases h : currentY + itemHeight > pageHeight - 40 <;> simp [h]

/-- C3: saveReportToHistory writes back the history whose head is the new
report (the input fields plus fresh id, timestamp and custom data) and
whose tail is the previously stored history unchanged; reading back gives
one more report, newest first, and an absent key reads as the empty
history. -/
theorem c3_saveReportToHistory_prepends (now : Nat) (timestamp : String)
    (templates : Option (List Template)) (store : Option (List Report))
    (r : ReportInput) :
    getReportHistory none = ([] : List Report)
  ∧ (saveReportToHistory now timestamp templates store r).1
      = (saveReportToHistory now timestamp templates store r).2 :: getReportHistory store
  ∧ (saveReportToHistory now timestamp templates store r).2.id = now
  ∧ (saveReportToHistory now timestamp templates store r).2.timestamp = timestamp
  ∧ (saveReportToHistory now timestamp templates store r).2.address = r.address
  ∧ (saveReportToHistory now timestamp templates store r).2.imageUrl = r.imageUrl
  ∧ (saveReportToHistory now timestamp templates store r).2.measurements = r.measurements
  ∧ (saveReportToHistory now timestamp templates store r).2.templateId = r.templateId
  ∧ (saveReportToHistory now timestamp templates store r).1.length
      = (getReportHistory store).length + 1 := by
  refine ⟨rfl, rfl, ?_, ?_, ?_, ?_, ?_, ?_, by simp [saveReportToHistory]⟩ <;>
    (simp only [saveReportToHistory]; repeat' split) <;> simp

/-- C7: deleteTemplate writes back exactly the stored templates whose id
differs from the given one, preserving their relative order: no template
with that id remains and every other template survives. -/
theorem c7_deleteTemplate_spec (templateId : Nat) (store : Option (List Template)) :
    deleteTemplate templateId store
      = (getTemplates store).filter (fun t => t.id != templateId)
  ∧ (∀ t, t ∈ deleteTemplate templateId store → t.id ≠ templateId)
  ∧ List.Sublist (deleteTemplate templateId store) (getTemplates store)
  ∧ (∀ t, t ∈ getTemplates store → t.id ≠ templateId →
      t ∈ deleteTemplate templateId store) := by
  refine ⟨rfl, ?_, List.filter_sublist _, ?_⟩
  · intro t ht
    simp only [deleteTemplate, List.mem_filter] at ht
    simpa using ht.2
  · intro t ht hne
    simp only [deleteTemplate, List.mem_filter]
    exact ⟨ht, by simpa using hne⟩

/-- Witness for C7 at a concrete store: the template with the other id
survives the deletion. -/
theorem c7_deleteTemplate_spec_witness :
    (⟨7, "b", []⟩ : Template) ∈ deleteTemplate 5 (some [⟨5, "a", []⟩, ⟨7, "b", []⟩]) :=
  (c7_deleteTemplate_spec 5 (some [⟨5, "a", []⟩, ⟨7, "b", []⟩])).2.2.2
    ⟨7, "b", []⟩ (by decide) (by decide)

/-- C9: updateReportInHistory replaces exactly the first stored report
whose id equals the updated report's id, leaving every other entry
unchanged and in place, and leaves the store entirely unchanged when no
stored report has that id. -/
theorem c9_updateReportInHistory_frame (u : Report) (store : Option (List Report)) :
    ((∀ r ∈ getReportHistory store, r.id ≠ u.id) →
      updateReportInHistory u store = store)
  ∧ (∀ pre x post, getReportHistory store = pre ++ x :: post → x.id = u.id →
      (∀ y ∈ pre, y.id ≠ u.id) →
      updateReportInHistory u store = some (pre ++ u :: post)) := by
  constructor
  · intro h
    have hn : jsFindIndex (fun r => r.id == u.id) (getReportHistory store) = none :=
      jsFindIndex_eq_none _ _ (fun y hy => by simpa using h y hy)
    simp only [updateReportInHistory, hn]
  · intro pre x post hsplit hx hpre
    have hf : jsFindIndex (fun r => r.id == u.id) (pre ++ x :: post)
        = some pre.length :=
      jsFindIndex_first _ x post pre (fun y hy => by simpa using hpre y hy)
        (by simpa using hx)
    simp only [updateReportInHistory, hsplit, hf, set_after_prefix]

/-- Witness for C9 at a concrete store: the second stored report is
replaced and the first one survives unchanged. -/
theorem c9_updateReportInHistory_frame_witness :
    updateReportInHistory
      ⟨2, "new", "img2", ⟨"", "", "", "", "", "", ""⟩, "ts2", none, []⟩
      (some [⟨1, "a", "i", ⟨"", "", "", "", "", "", ""⟩, "t", none, []⟩,
             ⟨2, "b", "j", ⟨"", "", "", "", "", "", ""⟩, "t", none, []⟩])
    = some [⟨1, "a", "i", ⟨"", "", "", "", "", "", ""⟩, "t", none, []⟩,
            ⟨2, "new", "img2", ⟨"", "", "", "", "", "", ""⟩, "ts2", none, []⟩] :=
  (c9_updateReportInHistory_frame
      ⟨2, "new", "img2", ⟨"", "", "", "", "", "", ""⟩, "ts2", none, []⟩
      (some [⟨1, "a", "i", ⟨"", "", "", "", "", "", ""⟩, "t", none, []⟩,
             ⟨2, "b", "j", ⟨"", "", "", "", "", "", ""⟩, "t", none, []⟩])).2
    [⟨1, "a", "i", ⟨"", "", "", "", "", "", ""⟩, "t", none, []⟩]
    ⟨2, "b", "j", ⟨"", "", "", "", "", "", ""⟩, "t", none, []⟩ []
    rfl rfl (by decide)

/-- The fold inside updateTotals, split into the numeric total and the
per-row cell texts. -/
theorem updateTotals_fold (rows : List (JSNum × JSNum)) :
    ∀ (a : JSNum) (cs : List String),
      rows.foldl (fun (acc : JSNum × List String) (r : JSNum × JSNum) =>
          (acc.1 + jsOr r.1 0 * jsOr r.2 0,
           acc.2 ++ ["$" ++ toFixed 2 (jsOr r.1 0 * jsOr r.2 0)])) (a, cs)
      = (rows.foldl (fun acc r => acc + jsOr r.1 0 * jsOr r.2 0) a,
         cs ++ rows.map (fun r => "$" ++ toFixed 2 (jsOr r.1 0 * jsOr r.2 0))) := by
  induction rows with
  | nil => intro a cs; simp
  | cons r t ih => intro a cs; simp [ih]

/-- C4: updateTotals displays, for each line-item row, the row's quantity
times rate (a non-numeric input counting as 0) formatted to two decimal
places, and displays as the grand total the sum of quantity times rate
over all rows. -/
theorem c4_updateTotals_spec (rows : List (JSNum × JSNum)) :
    (updateTotals rows).1
      = rows.map (fun r => "$" ++ toFixed 2 (jsOr r.1 0 * jsOr r.2 0))
  ∧ (updateTotals rows).2
      = "Total: $" ++
          toFixed 2 (rows.foldl (fun acc r => acc + jsOr r.1 0 * jsOr r.2 0) 0) := by
  unfold updateTotals
  simp only [updateTotals_fold]
  simp

/-- C8: every quote that the quote-form submit listener persists has a
nonempty line-item list and a stored total equal to the sum of quantity
times rate over its line items; with zero line items the listener alerts
and leaves the stored quotes unchanged. -/
theorem c8_quoteFormSubmit_invariant (now : Nat)
    (clientName clientAddress clientEmail projectTitle : String)
    (rows : List (String × JSNum × JSNum)) (store : Option (List Quote)) :
    (rows = [] →
      quoteFormSubmit now clientName clientAddress clientEmail projectTitle rows store
        = (getQuotesFromStorage store, true))
  ∧ (∀ x xs, rows = x :: xs →
      ∃ q : Quote,
        quoteFormSubmit now clientName clientAddress clientEmail projectTitle rows store
          = (getQuotesFromStorage store ++ [q], false)
        ∧ q.lineItems ≠ []
        ∧ q.total = q.lineItems.foldl (fun acc li => acc + li.quantity * li.rate) 0
        ∧ q.id = now) := by
  constructor
  · intro h; subst h; rfl
  · intro x xs h
    subst h
    refine ⟨{ id := now, clientName := clientName, clientAddress := clientAddress,
              clientEmail := clientEmail, projectTitle := projectTitle,
              lineItems := (x :: xs).map (fun r =>
                ({ description := r.1, quantity := r.2.1, rate := r.2.2 } : LineItem)),
              total := (x :: xs).foldl (fun acc r => acc + r.2.1 * r.2.2) (0 : JSNum) },
            rfl, by simp, ?_, rfl⟩
    simp [List.foldl_map]

/-- Witness for C8: the empty form alerts without changing storage, and a
one-row form persists a quote satisfying the invariant. -/
theorem c8_quoteFormSubmit_invariant_witness :
    (quoteFormSubmit 9 "c" "a" "e" "p" [] none = (getQuotesFromStorage none, true))
  ∧ ∃ q : Quote,
      quoteFormSubmit 9 "c" "a" "e" "p" [("roof", JSNum.num 2, JSNum.num 50)] none
        = (getQuotesFromStorage none ++ [q], false)
      ∧ q.lineItems ≠ []
      ∧ q.total = q.lineItems.foldl (fun acc li => acc + li.quantity * li.rate) 0
      ∧ q.id = 9 :=
  ⟨(c8_quoteFormSubmit_invariant 9 "c" "a" "e" "p" [] none).1 rfl,
   (c8_quoteFormSubmit_invariant 9 "c" "a" "e" "p"
      [("roof", JSNum.num 2, JSNum.num 50)] none).2
     ("roof", JSNum.num 2, JSNum.num 50) [] rfl⟩

/-- C5: given the pair of requests built from the address and responses in
which the image response has at least one generated image, getRoofReport
returns the parse of the measurement response text together with the data
URL formed from the first generated image's bytes. -/
theorem c5_getRoofReport_result (parseJson : String → Measurements) (address : String)
    (respond : GenContentRequest × GenImagesRequest → MeasurementResponse × ImageResponse)
    (g : GeneratedImage) (gs : List GeneratedImage)
    (h : (respond (measurementRequest address, imageRequest address)).2.generatedImages
          = g :: gs) :
    getRoofReport parseJson address respond
      = some ("data:image/jpeg;base64," ++ g.image.imageBytes,
              parseJson (respond (measurementRequest address, imageRequest address)).1.text) := by
  simp only [getRoofReport, h]

/-- Witness for C5 at a concrete environment. -/
theorem c5_getRoofReport_result_witness :
    getRoofReport (fun _ => ⟨"a", "p", "r", "v", "e", "k", "w"⟩) "123 Main"
      (fun _ => (⟨"payload"⟩, ⟨[⟨⟨"IMG"⟩⟩]⟩))
      = some ("data:image/jpeg;base64,IMG", ⟨"a", "p", "r", "v", "e", "k", "w"⟩) :=
  c5_getRoofReport_result (fun _ => ⟨"a", "p", "r", "v", "e", "k", "w"⟩) "123 Main"
    (fun _ => (⟨"payload"⟩, ⟨[⟨⟨"IMG"⟩⟩]⟩)) ⟨⟨"IMG"⟩⟩ [] rfl

/-- C6 counterexample: the report document's signup handler in part_000
transitions into the app (it renders the address-input view) without
writing anything to local storage, so the claim fails for that submission
path. -/
theorem c6_signup_counterexample :
    (handleSignUpFormSubmit 0).filter isSetItemEvent = []
  ∧ UIEvent.render "address-input" ∈ handleSignUpFormSubmit 0 := by
  decide

/-- C6 amended: the signup listeners of index.tsx and of the quote
document store the trimmed full-name under contractorUserName before
rendering the next view, while the report document's handler in part_000
transitions without any local-storage write. -/
theorem c6_signup_amended (fullName : String) (historyLength : Nat) :
    signUpListenerIndex fullName
      = [UIEvent.setItem "contractorUserName" fullName.trim,
         UIEvent.closeModal, UIEvent.render "address-input"]
  ∧ signUpListenerQuotes fullName
      = [UIEvent.setItem "contractorUserName" fullName.trim,
         UIEvent.closeModal, UIEvent.render "dashboard"]
  ∧ (handleSignUpFormSubmit historyLength).filter isSetItemEvent = [] := by
  refine ⟨rfl, rfl, ?_⟩
  by_cases h : historyLength > 0 <;> simp [handleSignUpFormSubmit, h, isSetItemEvent]

/-- The SVG string decomposed around the rect height attribute and the
polygon points attribute. -/
theorem svg_decomp (m : Measurements) :
    createRoofVisualizationSVG m
      = svgPre m ++ "\" height=\"" ++ jsToString (rectHeight m) ++ "\" style=\"" ++
        svgMid m ++ "</text>\n        <polygon points=\"" ++ jsToString triX ++ "," ++
        jsToString (triY m) ++ " " ++ jsToString (triX + triBase) ++ "," ++
        jsToString (triY m) ++ " " ++ jsToString (triX + triBase) ++ "," ++
        jsToString (triY m - triHeight m) ++ "\" style=\"" ++ svgPost m := by
  simp only [createRoofVisualizationSVG, svgPre, svgMid, svgPost, String.append_assoc]

/-- C1: the SVG diagram geometry is computed from the measurement strings
by the parse-with-fallback chains (ridge fallback 100, eaves fallback 200
halved, pitch split at the slash with fallbacks 6 and 12), the rectangle
height is (roofDepth / ridgeLength) times the rect width 200, the triangle
height is (rise / run) times the triangle base 100, and these computed
values appear in the returned SVG string: the rect height attribute prints
the rectangle height, and the polygon apex sits triHeight above the
triangle base line. -/
theorem c1_createRoofVisualizationSVG_geometry (m : Measurements) :
    ridgeLength m = jsOr (parseFloat m.ridges) 100
  ∧ roofDepth m = (jsOr (parseFloat m.eaves) 200) / 2
  ∧ rise m = jsOrOpt ((((strOr m.pitch "6/12").splitOn "/").map (fun p => parseFloat p))[0]?) 6
  ∧ run m = jsOrOpt ((((strOr m.pitch "6/12").splitOn "/").map (fun p => parseFloat p))[1]?) 12
  ∧ rectHeight m = (roofDepth m) / (ridgeLength m) * 200
  ∧ triHeight m = (rise m) / (run m) * 100
  ∧ (∃ a b : String, createRoofVisualizationSVG m
        = a ++ "\" height=\"" ++ jsToString (rectHeight m) ++ "\" style=\"" ++ b)
  ∧ (∃ a b : String, createRoofVisualizationSVG m
        = a ++ "</text>\n        <polygon points=\"" ++ jsToString triX ++ "," ++
          jsToString (triY m) ++ " " ++ jsToString (triX + triBase) ++ "," ++
          jsToString (triY m) ++ " " ++ jsToString (triX + triBase) ++ "," ++
          jsToString (triY m - triHeight m) ++ "\" style=\"" ++ b) := by
  refine ⟨rfl, rfl, rfl, rfl, rfl, rfl, ?_, ?_⟩
  · refine ⟨svgPre m,
      svgMid m ++ "</text>\n        <polygon points=\"" ++ jsToString triX ++ "," ++
        jsToString (triY m) ++ " " ++ jsToString (triX + triBase) ++ "," ++
        jsToString (triY m) ++ " " ++ jsToString (triX + triBase) ++ "," ++
        jsToString (triY m - triHeight m) ++ "\" style=\"" ++ svgPost m, ?_⟩
    rw [svg_decomp m]
    simp only [String.append_assoc]
  · refine ⟨svgPre m ++ "\" height=\"" ++ jsToString (rectHeight m) ++ "\" style=\"" ++
      svgMid m, svgPost m, ?_⟩
    rw [svg_decomp m]
